import Mathlib

/-!
# Tasky: the todo resource handlers of `controllers/todoController.go`

The six gin handlers (`GetTodo`, `ClearAll`, `GetTodos`, `DeleteTodo`,
`UpdateTodo`, `AddTodo`) are embedded as pure functions.  A handler receives

* the collection handle `todoCollection` (the document store, an external
  collaborator, given as an interface of store calls over a state `σ`),
* the gin context `c` (outcome of `auth.ValidateSession`, route parameters and
  the outcome of `BindJSON`),
* the store state before the call,

and returns an `Outcome`: the JSON response the handler itself wrote (if any),
the store state afterwards and the list of store calls it issued.

The second half of the definitions gives the reference behaviour of a MongoDB
collection on a list of records (`memCollection`), against which the claims
about stored data are settled.
-/

namespace Tasky

/-! ## Identifiers (`primitive.ObjectID`, a `[12]byte`) -/

/-- The type `primitive.ObjectID`: twelve bytes. -/
structure ObjectID where
  bytes : List (Fin 256)
  size : bytes.length = 12
deriving DecidableEq

/-- The constant `primitive.NilObjectID`: the all-zero identifier. -/
def NilObjectID : ObjectID := ⟨List.replicate 12 0, by simp⟩

/-- The method `ObjectID.IsZero`: the identifier equals `NilObjectID`. -/
def ObjectID.IsZero (id : ObjectID) : Bool := decide (id = NilObjectID)

/-- Lower-case hex digit of a nibble (the table `0123456789abcdef` of `encoding/hex`). -/
def hexDigit (n : Nat) : Char :=
  if n < 10 then Char.ofNat (48 + n) else Char.ofNat (87 + n)

/-- The function `fromHexChar` of `encoding/hex`: digits and both letter cases. -/
def fromHexChar (c : Char) : Option Nat :=
  if 48 ≤ c.toNat ∧ c.toNat ≤ 57 then some (c.toNat - 48)
  else if 97 ≤ c.toNat ∧ c.toNat ≤ 102 then some (c.toNat - 97 + 10)
  else if 65 ≤ c.toNat ∧ c.toNat ≤ 70 then some (c.toNat - 65 + 10)
  else none

/-- Hex encoding of a byte sequence, two digits per byte, high nibble first. -/
def hexEncode : List (Fin 256) → List Char
  | [] => []
  | b :: bs => hexDigit (b.val / 16) :: hexDigit (b.val % 16) :: hexEncode bs

/-- Hex decoding (`hex.Decode`): fails on an invalid digit or an odd length. -/
def hexDecode : List Char → Option (List (Fin 256))
  | [] => some []
  | [_] => none
  | hi :: lo :: rest =>
    match fromHexChar hi, fromHexChar lo, hexDecode rest with
    | some h, some l, some bs => some (Fin.ofNat (h * 16 + l) :: bs)
    | _, _, _ => none

/-- The method `ObjectID.Hex`: the 24-character lower-case hex string. -/
def ObjectID.Hex (id : ObjectID) : String := ⟨hexEncode id.bytes⟩

/-- The function `primitive.ObjectIDFromHex`: the string must have length 24 and
decode as hex; anything else is an error. -/
def ObjectIDFromHex (s : String) : Except String ObjectID :=
  if s.data.length ≠ 24 then .error "the provided hex string is not a valid ObjectID"
  else
    match hexDecode s.data with
    | none => .error "encoding/hex: invalid byte"
    | some bs =>
      if h : bs.length = 12 then .ok ⟨bs, h⟩
      else .error "the provided hex string is not a valid ObjectID"

/-! ## Records, filters, responses -/

/-- The record `models.Todo`: identifier, owning user, and the remaining task
content, whose shape `κ` is left as a parameter (the handlers never inspect it). -/
structure Todo (κ : Type) where
  ID : ObjectID
  UserID : String
  content : κ
deriving DecidableEq

/-- A filter document `bson.M` over the two keys the handlers use; a key that
is `none` is absent from the document and constrains nothing. -/
structure Filter where
  _id : Option ObjectID
  userid : Option String
deriving DecidableEq

/-- A store call together with the documents passed to it. -/
inductive StoreOp (κ : Type) where
  | FindOne (filter : Filter)
  | Find (filter : Filter)
  | DeleteMany (filter : Filter)
  | DeleteOne (filter : Filter)
  | UpdateOne (filter : Filter) (set : Todo κ)
  | InsertOne (doc : Todo κ)

/-- The filter document of a store call, when it takes one. -/
def StoreOp.filter? {κ : Type} : StoreOp κ → Option Filter
  | .FindOne f => some f
  | .Find f => some f
  | .DeleteMany f => some f
  | .DeleteOne f => some f
  | .UpdateOne f _ => some f
  | .InsertOne _ => none

/-- JSON payloads the handlers write (`gin.H` maps, a record, or a record list). -/
inductive Body (κ : Type) where
  | error (msg : String)
  | todo (t : Todo κ)
  | todos (ts : List (Todo κ))
  | deleted (success : String) (deletedCount : Nat)
  | updated (success : String) (matchedCount modifiedCount : Nat)
  | created (success : String) (id : ObjectID)

/-- One `c.JSON(status, body)` call. -/
structure Response (κ : Type) where
  status : Nat
  body : Body κ

def StatusOK : Nat := 200
def StatusCreated : Nat := 201
def StatusBadRequest : Nat := 400
def StatusNotFound : Nat := 404
def StatusInternalServerError : Nat := 500

/-! ## Collaborators -/

/-- The part of `*gin.Context` the handlers read: whether
`auth.ValidateSession(c)` succeeded, the route parameters, and the outcome of
`c.BindJSON` into a `models.Todo`. -/
structure Context (κ : Type) where
  session : Bool
  params : List (String × String)
  body : Except String (Todo κ)

/-- The method `c.Param(key)`: the route parameter, or the empty string. -/
def Context.Param {κ : Type} (c : Context κ) (key : String) : String :=
  (c.params.lookup key).getD ""

/-- Error of `FindOne(...).Decode`: `mongo.ErrNoDocuments` or anything else. -/
inductive FindOneErr where
  | ErrNoDocuments
  | other (msg : String)

/-- A `*mongo.Cursor` as the loop of `GetTodos` sees it: one entry per `Next`
that returned true, holding the outcome of `Decode` on that document, and the
value `Err()` reports once `Next` has returned false. -/
structure Cursor (κ : Type) where
  items : List (Except String (Todo κ))
  err : Option String

structure UpdateResult where
  MatchedCount : Nat
  ModifiedCount : Nat

/-- The calls of `*mongo.Collection` the handlers use, over a store state `σ`.
Reads return a result only; writes also return the state afterwards.
`DeleteMany`/`DeleteOne` return `DeletedCount`, `InsertOne` the `InsertedID`. -/
structure Collection (σ κ : Type) where
  FindOne : σ → Filter → Except FindOneErr (Todo κ)
  Find : σ → Filter → Except String (Cursor κ)
  DeleteMany : σ → Filter → Except String Nat × σ
  DeleteOne : σ → Filter → Except String Nat × σ
  UpdateOne : σ → Filter → Todo κ → Except String UpdateResult × σ
  InsertOne : σ → Todo κ → Except String ObjectID × σ

/-- What one handler invocation did: the response it wrote itself (`none` when
it returned without calling `c.JSON`), the store afterwards, the store calls
issued in order. -/
structure Outcome (σ κ : Type) where
  response : Option (Response κ)
  store : σ
  ops : List (StoreOp κ)

/-! ## The handlers -/

variable {σ κ : Type}

/-- Handler `GetTodo` (lines 19-47). -/
def GetTodo (todoCollection : Collection σ κ) (c : Context κ) (db : σ) : Outcome σ κ :=
  let session := c.session
  if !session then ⟨none, db, []⟩
  else
    let id := c.Param "id"
    match ObjectIDFromHex id with
    | .error _ => ⟨some ⟨StatusBadRequest, .error "Invalid todo ID format"⟩, db, []⟩
    | .ok objId =>
      let filter : Filter := { _id := some objId, userid := none }
      match todoCollection.FindOne db filter with
      | .error .ErrNoDocuments =>
        ⟨some ⟨StatusNotFound, .error "Todo not found"⟩, db, [.FindOne filter]⟩
      | .error (.other msg) =>
        ⟨some ⟨StatusInternalServerError, .error msg⟩, db, [.FindOne filter]⟩
      | .ok todo => ⟨some ⟨StatusOK, .todo todo⟩, db, [.FindOne filter]⟩

/-- Handler `ClearAll` (lines 49-74). -/
def ClearAll (todoCollection : Collection σ κ) (c : Context κ) (db : σ) : Outcome σ κ :=
  let session := c.session
  if !session then ⟨none, db, []⟩
  else
    let userid := c.Param "userid"
    if userid = "" then ⟨some ⟨StatusBadRequest, .error "User ID is required"⟩, db, []⟩
    else
      let filter : Filter := { _id := none, userid := some userid }
      match todoCollection.DeleteMany db filter with
      | (.error _, db') =>
        ⟨some ⟨StatusInternalServerError, .error "Failed to delete todos"⟩, db',
          [.DeleteMany filter]⟩
      | (.ok deletedCount, db') =>
        ⟨some ⟨StatusOK, .deleted "All todos deleted" deletedCount⟩, db', [.DeleteMany filter]⟩

/-- The loop of `GetTodos` (lines 93-101): append decoded records until `Next`
returns false; the first `Decode` error ends the handler. -/
def GetTodos.loop : List (Except String (Todo κ)) → List (Todo κ) → Except String (List (Todo κ))
  | [], todos => .ok todos
  | .error e :: _, _ => .error e
  | .ok todo :: rest, todos => GetTodos.loop rest (todos ++ [todo])

/-- Handler `GetTodos` (lines 76-109). -/
def GetTodos (todoCollection : Collection σ κ) (c : Context κ) (db : σ) : Outcome σ κ :=
  let session := c.session
  if !session then ⟨none, db, []⟩
  else
    let userid := c.Param "userid"
    let filter : Filter := { _id := none, userid := some userid }
    match todoCollection.Find db filter with
    | .error _ =>
      ⟨some ⟨StatusInternalServerError, .error "Failed to fetch todos"⟩, db, [.Find filter]⟩
    | .ok findResult =>
      match GetTodos.loop findResult.items [] with
      | .error _ =>
        ⟨some ⟨StatusInternalServerError, .error "Failed to decode todo"⟩, db, [.Find filter]⟩
      | .ok todos =>
        match findResult.err with
        | some _ =>
          ⟨some ⟨StatusInternalServerError, .error "Error occurred while fetching todos"⟩, db,
            [.Find filter]⟩
        | none => ⟨some ⟨StatusOK, .todos todos⟩, db, [.Find filter]⟩

/-- Handler `DeleteTodo` (lines 111-149). -/
def DeleteTodo (todoCollection : Collection σ κ) (c : Context κ) (db : σ) : Outcome σ κ :=
  let session := c.session
  if !session then ⟨none, db, []⟩
  else
    let id := c.Param "id"
    let userid := c.Param "userid"
    if id = "" ∨ userid = "" then
      ⟨some ⟨StatusBadRequest, .error "Todo ID and User ID are required"⟩, db, []⟩
    else
      match ObjectIDFromHex id with
      | .error _ => ⟨some ⟨StatusBadRequest, .error "Invalid todo ID format"⟩, db, []⟩
      | .ok objId =>
        let filter : Filter := { _id := some objId, userid := some userid }
        match todoCollection.DeleteOne db filter with
        | (.error _, db') =>
          ⟨some ⟨StatusInternalServerError, .error "Failed to delete todo"⟩, db',
            [.DeleteOne filter]⟩
        | (.ok deletedCount, db') =>
          if deletedCount = 0 then
            ⟨some ⟨StatusNotFound, .error "Todo not found or not owned by user"⟩, db',
              [.DeleteOne filter]⟩
          else
            ⟨some ⟨StatusOK, .deleted "Todo deleted successfully" deletedCount⟩, db',
              [.DeleteOne filter]⟩

/-- Handler `UpdateTodo` (lines 151-191). -/
def UpdateTodo (todoCollection : Collection σ κ) (c : Context κ) (db : σ) : Outcome σ κ :=
  let session := c.session
  if !session then ⟨none, db, []⟩
  else
    match c.body with
    | .error _ => ⟨some ⟨StatusBadRequest, .error "Invalid request body"⟩, db, []⟩
    | .ok newTodo =>
      if newTodo.ID.IsZero ∨ newTodo.UserID = "" then
        ⟨some ⟨StatusBadRequest, .error "Todo ID and User ID are required"⟩, db, []⟩
      else
        let filter : Filter := { _id := some newTodo.ID, userid := some newTodo.UserID }
        match todoCollection.UpdateOne db filter newTodo with
        | (.error _, db') =>
          ⟨some ⟨StatusInternalServerError, .error "Failed to update todo"⟩, db',
            [.UpdateOne filter newTodo]⟩
        | (.ok result, db') =>
          if result.MatchedCount = 0 then
            ⟨some ⟨StatusNotFound, .error "Todo not found or not owned by user"⟩, db',
              [.UpdateOne filter newTodo]⟩
          else
            ⟨some ⟨StatusOK, .updated "Todo updated successfully" result.MatchedCount
              result.ModifiedCount⟩, db', [.UpdateOne filter newTodo]⟩

/-- Handler `AddTodo` (lines 193-227); `newObjectID` is the value
`primitive.NewObjectID()` returns during this call. -/
def AddTodo (todoCollection : Collection σ κ) (newObjectID : ObjectID) (c : Context κ) (db : σ) :
    Outcome σ κ :=
  let session := c.session
  if !session then ⟨none, db, []⟩
  else
    let userid := c.Param "userid"
    if userid = "" then ⟨some ⟨StatusBadRequest, .error "User ID is required"⟩, db, []⟩
    else
      match c.body with
      | .error _ => ⟨some ⟨StatusBadRequest, .error "Invalid request body"⟩, db, []⟩
      | .ok todo =>
        let todo := { todo with ID := newObjectID }
        let todo := { todo with UserID := userid }
        match todoCollection.InsertOne db todo with
        | (.error _, db') =>
          ⟨some ⟨StatusInternalServerError, .error "Failed to create todo"⟩, db',
            [.InsertOne todo]⟩
        | (.ok insertedID, db') =>
          ⟨some ⟨StatusCreated, .created "Todo created successfully" insertedID⟩, db',
            [.InsertOne todo]⟩

/-! ## Reference document store -/

/-- The collection's content: the stored records in the store's iteration order. -/
abbrev Store (κ : Type) := List (Todo κ)

/-- A record satisfies a filter document when every key present equals the
record's field (MongoDB equality match, keys conjoined). -/
def Filter.Matches (f : Filter) (t : Todo κ) : Bool :=
  (match f._id with
    | none => true
    | some i => decide (t.ID = i)) &&
  (match f.userid with
    | none => true
    | some u => decide (t.UserID = u))

/-- Delete the first record satisfying `p`; the number deleted is 0 or 1. -/
def deleteFirst (p : Todo κ → Bool) : Store κ → Nat × Store κ
  | [] => (0, [])
  | t :: ts =>
    if p t then (1, ts)
    else
      let r := deleteFirst p ts
      (r.1, t :: r.2)

/-- Apply `$set: new` to the first record satisfying `p`: every field of the
record is overwritten by the one of `new`.  Returns matched and modified
counts (modified is 0 when the record already equals `new`). -/
def updateFirst [DecidableEq κ] (p : Todo κ → Bool) (new : Todo κ) :
    Store κ → UpdateResult × Store κ
  | [] => (⟨0, 0⟩, [])
  | t :: ts =>
    if p t then (⟨1, if t = new then 0 else 1⟩, new :: ts)
    else
      let r := updateFirst p new ts
      (r.1, t :: r.2)

/-- Reference behaviour of the `todos` collection on a list of records.
`fault = some e` is a store-operational failure (timeout, connection loss):
every call reports `e` and, in this reference, has no effect.  With
`fault = none` every call succeeds with MongoDB's semantics and every stored
record decodes. -/
def memCollection [DecidableEq κ] (fault : Option String) : Collection (Store κ) κ where
  FindOne := fun db f =>
    match fault with
    | some e => .error (.other e)
    | none =>
      match db.find? f.Matches with
      | none => .error .ErrNoDocuments
      | some t => .ok t
  Find := fun db f =>
    match fault with
    | some e => .error e
    | none => .ok ⟨(db.filter f.Matches).map .ok, none⟩
  DeleteMany := fun db f =>
    match fault with
    | some e => (.error e, db)
    | none => (.ok (db.countP f.Matches), db.filter (fun t => !f.Matches t))
  DeleteOne := fun db f =>
    match fault with
    | some e => (.error e, db)
    | none => let r := deleteFirst f.Matches db; (.ok r.1, r.2)
  UpdateOne := fun db f new =>
    match fault with
    | some e => (.error e, db)
    | none => let r := updateFirst f.Matches new db; (.ok r.1, r.2)
  InsertOne := fun db doc =>
    match fault with
    | some e => (.error e, db)
    | none => (.ok doc.ID, db ++ [doc])

/-- The records of a store owned by someone other than `u`. -/
def others (u : String) (db : Store κ) : Store κ := db.filter (fun t => decide (t.UserID ≠ u))

/-- The handler answered 400 with an error payload, issued no store call and
left the store as it was. -/
def Outcome.Rejected (o : Outcome σ κ) (db : σ) : Prop :=
  (∃ msg, o.response = some ⟨StatusBadRequest, .error msg⟩) ∧ o.ops = [] ∧ o.store = db

/-- The handler answered 500 with an error payload (which carries no records). -/
def Outcome.Failed (o : Outcome σ κ) : Prop :=
  ∃ msg, o.response = some ⟨StatusInternalServerError, .error msg⟩

/-- A hexadecimal digit, either letter case. -/
def isHexChar (c : Char) : Bool :=
  ('0' ≤ c && c ≤ '9') || ('a' ≤ c && c ≤ 'f') || ('A' ≤ c && c ≤ 'F')

/-- A string is a hex encoding of a store identifier: 24 hexadecimal digits
(twelve bytes, two digits each). -/
def IsHexID (s : String) : Prop := s.length = 24 ∧ ∀ c ∈ s.data, isHexChar c = true

/-! ## Sample data used to instantiate the theorems -/

/-- A sample identifier, `0102030405060708090a0b0c` in hex. -/
def sampleID : ObjectID := ⟨[1, 2, 3, 4, 5, 6, 7, 8, 9, 10, 11, 12], rfl⟩

/-- A second sample identifier. -/
def otherID : ObjectID := ⟨[12, 11, 10, 9, 8, 7, 6, 5, 4, 3, 2, 1], rfl⟩

/-- A store holding one record of user `u1`, with text content. -/
def sampleStore : Store String := [⟨sampleID, "u1", "buy milk"⟩]

/-- A valid-session request with neither route parameters nor a readable body. -/
def emptyRequest : Context String := ⟨true, [], .error "EOF"⟩

/-! ## Hex encoding lemmas -/

theorem fromHexChar_isSome {c : Char} {n : Nat} (h : fromHexChar c = some n) :
    isHexChar c = true := by
  unfold fromHexChar at h
  simp only [isHexChar, Bool.or_eq_true, Bool.and_eq_true, decide_eq_true_eq, Char.le_def]
  have e0 : ('0' : Char).val.toNat = 48 := rfl
  have e9 : ('9' : Char).val.toNat = 57 := rfl
  have ea : ('a' : Char).val.toNat = 97 := rfl
  have ef : ('f' : Char).val.toNat = 102 := rfl
  have eA : ('A' : Char).val.toNat = 65 := rfl
  have eF : ('F' : Char).val.toNat = 70 := rfl
  simp only [UInt32.le_def, ← UInt32.toNat.eq_1, Fin.le_def] at *
  split_ifs at h with h1 h2 h3
  · left; left; simpa [Char.toNat, e0, e9] using h1
  · left; right; simpa [Char.toNat, ea, ef] using h2
  · right; simpa [Char.toNat, eA, eF] using h3

theorem hexDecode_chars : ∀ (l : List Char) (bs : List (Fin 256)),
    hexDecode l = some bs → ∀ c ∈ l, isHexChar c = true
  | [], _, _ => by simp
  | [_], _, h => by simp [hexDecode] at h
  | hi :: lo :: rest, bs, h => by
    unfold hexDecode at h
    cases hh : fromHexChar hi with
    | none => simp [hh] at h
    | some a =>
      cases hl : fromHexChar lo with
      | none => simp [hh, hl] at h
      | some b =>
        cases hr : hexDecode rest with
        | none => simp [hh, hl, hr] at h
        | some r =>
          intro c hc
          simp only [List.mem_cons] at hc
          rcases hc with rfl | rfl | hc
          · exact fromHexChar_isSome hh
          · exact fromHexChar_isSome hl
          · exact hexDecode_chars rest r hr c hc

/-- A string that `ObjectIDFromHex` accepts is a 24-digit hex string. -/
theorem ObjectIDFromHex_ok_isHexID {s : String} {X : ObjectID} (h : ObjectIDFromHex s = .ok X) :
    IsHexID s := by
  unfold ObjectIDFromHex at h
  by_cases hl : s.data.length = 24
  · refine ⟨hl, ?_⟩
    cases hd : hexDecode s.data with
    | none => simp [hl, hd] at h
    | some bs => exact hexDecode_chars _ _ hd
  · rw [if_pos hl] at h
    exact absurd h (by simp)

theorem ObjectIDFromHex_error_of_not_isHexID {s : String} (h : ¬ IsHexID s) :
    ∃ e, ObjectIDFromHex s = .error e := by
  cases hr : ObjectIDFromHex s with
  | error e => exact ⟨e, rfl⟩
  | ok X => exact absurd (ObjectIDFromHex_ok_isHexID hr) h

theorem fromHexChar_hexDigit : ∀ n : Fin 16, fromHexChar (hexDigit n.val) = some n.val := by
  decide

theorem hexDecode_hexEncode : ∀ bs : List (Fin 256), hexDecode (hexEncode bs) = some bs
  | [] => rfl
  | b :: bs => by
    have h1 := fromHexChar_hexDigit ⟨b.val / 16, by omega⟩
    have h2 := fromHexChar_hexDigit ⟨b.val % 16, by omega⟩
    simp only at h1 h2
    simp only [hexEncode, hexDecode, h1, h2, hexDecode_hexEncode bs]
    congr 2
    apply Fin.ext
    simp only [Fin.ofNat, Fin.val_mk]
    omega

theorem hexEncode_length : ∀ bs : List (Fin 256), (hexEncode bs).length = 2 * bs.length
  | [] => rfl
  | b :: bs => by simp [hexEncode, hexEncode_length bs]; omega

/-- Parsing the hex form of an identifier gives the identifier back. -/
theorem ObjectIDFromHex_Hex (X : ObjectID) : ObjectIDFromHex X.Hex = .ok X := by
  have hl : (hexEncode X.bytes).length = 24 := by rw [hexEncode_length, X.size]
  simp [ObjectIDFromHex, ObjectID.Hex, hl, hexDecode_hexEncode, X.size]

/-! ## The loop of `GetTodos` -/

theorem GetTodos.loop_error : ∀ (items : List (Except String (Todo κ))) (acc : List (Todo κ)),
    (∃ e, Except.error e ∈ items) → ∃ e, GetTodos.loop items acc = .error e
  | [], _, h => by simp at h
  | .error e :: _, _, _ => ⟨e, rfl⟩
  | .ok t :: rest, acc, h => by
    obtain ⟨e, he⟩ := h
    simp only [List.mem_cons] at he
    rcases he with he | he
    · exact absurd he (by simp)
    · exact GetTodos.loop_error rest (acc ++ [t]) ⟨e, he⟩

theorem GetTodos.loop_ok : ∀ (items : List (Except String (Todo κ))) (acc : List (Todo κ)),
    (¬ ∃ e, Except.error e ∈ items) →
      GetTodos.loop items acc = .ok (acc ++ items.filterMap Except.toOption)
  | [], _, _ => by simp [GetTodos.loop]
  | .error e :: _, _, h => absurd ⟨e, List.mem_cons_self _ _⟩ h
  | .ok t :: rest, acc, h => by
    have h' : ¬ ∃ e, Except.error e ∈ rest := fun ⟨e, he⟩ => h ⟨e, List.mem_cons_of_mem _ he⟩
    simp [GetTodos.loop, GetTodos.loop_ok rest (acc ++ [t]) h', Except.toOption]

/-! ## Properties of the handlers over any collection -/

/-- C8: when the session validator returns false, each of the six handlers
returns at once: it writes no response of its own, issues no store call and
leaves the store as it was, whatever the parameters and the body. -/
theorem invalid_session_no_action (coll : Collection σ κ) (newObjectID : ObjectID)
    (c : Context κ) (db : σ) (h : c.session = false) :
    GetTodo coll c db = ⟨none, db, []⟩ ∧ GetTodos coll c db = ⟨none, db, []⟩ ∧
    AddTodo coll newObjectID c db = ⟨none, db, []⟩ ∧ UpdateTodo coll c db = ⟨none, db, []⟩ ∧
    DeleteTodo coll c db = ⟨none, db, []⟩ ∧ ClearAll coll c db = ⟨none, db, []⟩ := by
  simp [GetTodo, GetTodos, AddTodo, UpdateTodo, DeleteTodo, ClearAll, h]

theorem invalid_session_no_action_witness :
    let c : Context String :=
      ⟨false, [("id", sampleID.Hex), ("userid", "u1")], .ok ⟨sampleID, "u1", "done"⟩⟩
    GetTodo (memCollection none) c sampleStore = ⟨none, sampleStore, []⟩ ∧
    GetTodos (memCollection none) c sampleStore = ⟨none, sampleStore, []⟩ ∧
    AddTodo (memCollection none) otherID c sampleStore = ⟨none, sampleStore, []⟩ ∧
    UpdateTodo (memCollection none) c sampleStore = ⟨none, sampleStore, []⟩ ∧
    DeleteTodo (memCollection none) c sampleStore = ⟨none, sampleStore, []⟩ ∧
    ClearAll (memCollection none) c sampleStore = ⟨none, sampleStore, []⟩ :=
  invalid_session_no_action (memCollection none) otherID _ sampleStore rfl

/-- C10: with a valid session, a missing required field or an unreadable body
is answered 400 without any store call: `AddTodo` with an empty route userid or
a body that does not deserialize; `UpdateTodo` with a body that does not
deserialize, or whose id is zero, or whose userid is empty; `DeleteTodo` with
an empty id or an empty userid; `ClearAll` with an empty userid. -/
theorem bad_input_rejected (coll : Collection σ κ) (newObjectID : ObjectID)
    (c : Context κ) (db : σ) (h : c.session = true) :
    ((c.Param "userid" = "" ∨ ∃ e, c.body = .error e) →
      (AddTodo coll newObjectID c db).Rejected db) ∧
    (((∃ e, c.body = .error e) ∨
        ∃ b, c.body = .ok b ∧ (b.ID.IsZero = true ∨ b.UserID = "")) →
      (UpdateTodo coll c db).Rejected db) ∧
    ((c.Param "id" = "" ∨ c.Param "userid" = "") → (DeleteTodo coll c db).Rejected db) ∧
    (c.Param "userid" = "" → (ClearAll coll c db).Rejected db) := by
  refine ⟨?_, ?_, ?_, ?_⟩
  · rintro (hu | ⟨e, he⟩)
    · simp [AddTodo, h, hu, Outcome.Rejected]
    · by_cases hu : c.Param "userid" = "" <;> simp [AddTodo, h, hu, he, Outcome.Rejected]
  · rintro (⟨e, he⟩ | ⟨b, hb, hz⟩)
    · simp [UpdateTodo, h, he, Outcome.Rejected]
    · simp [UpdateTodo, h, hb, hz, Outcome.Rejected]
  · intro hp
    simp [DeleteTodo, h, hp, Outcome.Rejected]
  · intro hu
    simp [ClearAll, h, hu, Outcome.Rejected]

theorem bad_input_rejected_witness :
    (AddTodo (memCollection none) otherID emptyRequest sampleStore).Rejected sampleStore ∧
    (UpdateTodo (memCollection none) emptyRequest sampleStore).Rejected sampleStore ∧
    (DeleteTodo (memCollection none) emptyRequest sampleStore).Rejected sampleStore ∧
    (ClearAll (memCollection none) emptyRequest sampleStore).Rejected sampleStore :=
  have w := bad_input_rejected (memCollection none) otherID emptyRequest sampleStore rfl
  ⟨w.1 (Or.inl rfl), w.2.1 (Or.inl ⟨"EOF", rfl⟩), w.2.2.1 (Or.inl rfl), w.2.2.2 rfl⟩

/-- C6: with a valid session, an id that is not a 24-digit hex string makes
`GetTodo` and `DeleteTodo` (for any userid) answer 400 without any store call,
so the store is unchanged. -/
theorem malformed_id_rejected (coll : Collection σ κ) (c : Context κ) (db : σ)
    (h : c.session = true) (hid : ¬ IsHexID (c.Param "id")) :
    (GetTodo coll c db).Rejected db ∧ (DeleteTodo coll c db).Rejected db := by
  obtain ⟨e, he⟩ := ObjectIDFromHex_error_of_not_isHexID hid
  constructor
  · simp [GetTodo, h, he, Outcome.Rejected]
  · by_cases hp : c.Param "id" = "" ∨ c.Param "userid" = ""
    · simp [DeleteTodo, h, hp, Outcome.Rejected]
    · simp [DeleteTodo, h, hp, he, Outcome.Rejected]

theorem malformed_id_rejected_witness :
    let c : Context String := ⟨true, [("id", "not-a-hex-id"), ("userid", "u1")], .error "EOF"⟩
    (GetTodo (memCollection none) c sampleStore).Rejected sampleStore ∧
    (DeleteTodo (memCollection none) c sampleStore).Rejected sampleStore :=
  malformed_id_rejected (memCollection none) _ sampleStore rfl
    (fun hv => absurd hv.1 (by decide))

/-- C9: with a valid session `GetTodos` issues one `Find` filtered on the route
userid and never answers with a truncated list.  If `Find` reports an error,
or decoding any yielded record fails, or the cursor reports an error, the
answer is 500 with an error payload; otherwise it is 200 with every yielded
record, in iteration order. -/
theorem GetTodos_all_or_nothing (coll : Collection σ κ) (c : Context κ) (db : σ)
    (h : c.session = true) :
    (GetTodos coll c db).ops = [.Find ⟨none, some (c.Param "userid")⟩] ∧
    (GetTodos coll c db).store = db ∧
    (∀ e, coll.Find db ⟨none, some (c.Param "userid")⟩ = .error e →
      (GetTodos coll c db).Failed) ∧
    (∀ cur, coll.Find db ⟨none, some (c.Param "userid")⟩ = .ok cur →
      (((∃ e, Except.error e ∈ cur.items) ∨ cur.err ≠ none) → (GetTodos coll c db).Failed) ∧
      (¬ ((∃ e, Except.error e ∈ cur.items) ∨ cur.err ≠ none) →
        (GetTodos coll c db).response =
          some ⟨StatusOK, .todos (cur.items.filterMap Except.toOption)⟩)) := by
  have hops : (GetTodos coll c db).ops = [.Find ⟨none, some (c.Param "userid")⟩] ∧
      (GetTodos coll c db).store = db := by
    cases hf : coll.Find db ⟨none, some (c.Param "userid")⟩ with
    | error e => simp [GetTodos, h, hf]
    | ok cur =>
      cases hl : GetTodos.loop cur.items [] with
      | error e => simp [GetTodos, h, hf, hl]
      | ok ts => cases he : cur.err <;> simp [GetTodos, h, hf, hl, he]
  refine ⟨hops.1, hops.2, ?_, ?_⟩
  · intro e he
    simp [GetTodos, h, he, Outcome.Failed]
  · intro cur hcur
    constructor
    · intro hbad
      by_cases hdec : ∃ e, Except.error e ∈ cur.items
      · obtain ⟨e, he⟩ := GetTodos.loop_error cur.items [] hdec
        simp [GetTodos, h, hcur, he, Outcome.Failed]
      · have herr : cur.err ≠ none := hbad.resolve_left hdec
        obtain ⟨e, he⟩ := Option.ne_none_iff_exists'.mp herr
        simp [GetTodos, h, hcur, GetTodos.loop_ok cur.items [] hdec, he, Outcome.Failed]
    · intro hgood
      have hdec : ¬ ∃ e, Except.error e ∈ cur.items := fun hd => hgood (Or.inl hd)
      have herr : cur.err = none := by
        by_contra hn
        exact hgood (Or.inr hn)
      simp [GetTodos, h, hcur, GetTodos.loop_ok cur.items [] hdec, herr]

theorem GetTodos_all_or_nothing_witness :
    let c : Context String := ⟨true, [("userid", "u1")], .error "EOF"⟩
    (GetTodos (memCollection none) c sampleStore).response =
      some ⟨StatusOK, .todos sampleStore⟩ :=
  ((GetTodos_all_or_nothing (memCollection none)
      (⟨true, [("userid", "u1")], .error "EOF"⟩ : Context String) sampleStore rfl).2.2.2
    ⟨[.ok ⟨sampleID, "u1", "buy milk"⟩], none⟩ rfl).2 (by simp)

/-! ## The reference store -/

theorem deleteFirst_others (u : String) (p : Todo κ → Bool)
    (hp : ∀ t, p t = true → t.UserID = u) :
    ∀ db : Store κ, others u (deleteFirst p db).2 = others u db
  | [] => rfl
  | t :: ts => by
    by_cases ht : p t = true
    · have hu := hp t ht
      simp [deleteFirst, ht, others, hu]
    · have ih := deleteFirst_others u p hp ts
      simp [others] at ih
      by_cases hu : t.UserID = u <;> simp [deleteFirst, ht, others, hu, ih]

theorem updateFirst_others [DecidableEq κ] (u : String) (p : Todo κ → Bool) (new : Todo κ)
    (hp : ∀ t, p t = true → t.UserID = u) (hnew : new.UserID = u) :
    ∀ db : Store κ, others u (updateFirst p new db).2 = others u db
  | [] => rfl
  | t :: ts => by
    by_cases ht : p t = true
    · have hu := hp t ht
      simp [updateFirst, ht, others, hu, hnew]
    · have ih := updateFirst_others u p new hp hnew ts
      simp [others] at ih
      by_cases hu : t.UserID = u <;> simp [updateFirst, ht, others, hu, ih]

theorem filter_not_others (u : String) (p : Todo κ → Bool)
    (hp : ∀ t, p t = true → t.UserID = u) (db : Store κ) :
    others u (db.filter (fun t => !p t)) = others u db := by
  simp only [others, List.filter_filter]
  apply List.filter_congr
  intro t _
  by_cases ht : p t = true
  · simp [ht, hp t ht]
  · simp [ht]

theorem deleteFirst_none (p : Todo κ → Bool) :
    ∀ db : Store κ, (∀ t ∈ db, p t = false) → deleteFirst p db = (0, db)
  | [], _ => rfl
  | t :: ts, h => by
    have ht : p t = false := h t (List.mem_cons_self _ _)
    have ih := deleteFirst_none p ts (fun x hx => h x (List.mem_cons_of_mem _ hx))
    simp [deleteFirst, ht, ih]

theorem updateFirst_none [DecidableEq κ] (p : Todo κ → Bool) (new : Todo κ) :
    ∀ db : Store κ, (∀ t ∈ db, p t = false) → updateFirst p new db = (⟨0, 0⟩, db)
  | [], _ => rfl
  | t :: ts, h => by
    have ht : p t = false := h t (List.mem_cons_self _ _)
    have ih := updateFirst_none p new ts (fun x hx => h x (List.mem_cons_of_mem _ hx))
    simp [updateFirst, ht, ih]

theorem deleteFirst_append_fresh (p : Todo κ → Bool) (x : Todo κ) (hx : p x = true) :
    ∀ db : Store κ, (∀ t ∈ db, p t = false) → deleteFirst p (db ++ [x]) = (1, db)
  | [], _ => by simp [deleteFirst, hx]
  | t :: ts, h => by
    have ht : p t = false := h t (List.mem_cons_self _ _)
    have ih := deleteFirst_append_fresh p x hx ts (fun y hy => h y (List.mem_cons_of_mem _ hy))
    simp [deleteFirst, ht, ih]

theorem find?_append_fresh (p : Todo κ → Bool) (x : Todo κ) (hx : p x = true) :
    ∀ db : Store κ, (∀ t ∈ db, p t = false) → (db ++ [x]).find? p = some x
  | [], _ => by simp [hx]
  | t :: ts, h => by
    have ht : p t = false := h t (List.mem_cons_self _ _)
    have ih := find?_append_fresh p x hx ts (fun y hy => h y (List.mem_cons_of_mem _ hy))
    simp [List.find?, ht, ih]

theorem find?_none_of_forall (p : Todo κ → Bool) (db : Store κ) (h : ∀ t ∈ db, p t = false) :
    db.find? p = none := by
  simpa [List.find?_eq_none] using h

theorem ObjectIDFromHex_ok_ne_empty {s : String} {X : ObjectID} (h : ObjectIDFromHex s = .ok X) :
    s ≠ "" := by
  rintro rfl
  simp [ObjectIDFromHex] at h

/-! ## Properties of the handlers over the reference store -/

/-- With a valid session and a parsable id, `GetTodo` over the reference store
looks the record up by `_id` alone. -/
theorem GetTodo_mem [DecidableEq κ] (c : Context κ) (db : Store κ) (X : ObjectID)
    (h : c.session = true) (hid : ObjectIDFromHex (c.Param "id") = .ok X) :
    GetTodo (memCollection none) c db =
      match db.find? (Filter.Matches ⟨some X, none⟩) with
      | none => ⟨some ⟨StatusNotFound, .error "Todo not found"⟩, db, [.FindOne ⟨some X, none⟩]⟩
      | some t => ⟨some ⟨StatusOK, .todo t⟩, db, [.FindOne ⟨some X, none⟩]⟩ := by
  simp only [GetTodo, h, hid, memCollection]
  cases db.find? (Filter.Matches ⟨some X, none⟩) <;> simp

/-- With a valid session and well-formed parameters, `DeleteTodo` over the
reference store deletes the first record matching both id and userid. -/
theorem DeleteTodo_mem [DecidableEq κ] (c : Context κ) (db : Store κ) (X : ObjectID)
    (h : c.session = true) (hid : ObjectIDFromHex (c.Param "id") = .ok X)
    (hu : c.Param "userid" ≠ "") :
    DeleteTodo (memCollection none) c db =
      if (deleteFirst (Filter.Matches ⟨some X, some (c.Param "userid")⟩) db).1 = 0 then
        ⟨some ⟨StatusNotFound, .error "Todo not found or not owned by user"⟩,
          (deleteFirst (Filter.Matches ⟨some X, some (c.Param "userid")⟩) db).2,
          [.DeleteOne ⟨some X, some (c.Param "userid")⟩]⟩
      else
        ⟨some ⟨StatusOK, .deleted "Todo deleted successfully"
            (deleteFirst (Filter.Matches ⟨some X, some (c.Param "userid")⟩) db).1⟩,
          (deleteFirst (Filter.Matches ⟨some X, some (c.Param "userid")⟩) db).2,
          [.DeleteOne ⟨some X, some (c.Param "userid")⟩]⟩ := by
  have hne := ObjectIDFromHex_ok_ne_empty hid
  simp [DeleteTodo, h, hid, hu, hne, memCollection]

/-- With a valid session, a non-empty route userid and a readable body,
`AddTodo` over the reference store appends the body's content under the
generated id and the route userid. -/
theorem AddTodo_mem [DecidableEq κ] (newObjectID : ObjectID) (c : Context κ) (db : Store κ)
    (b : Todo κ) (h : c.session = true) (hu : c.Param "userid" ≠ "") (hb : c.body = .ok b) :
    AddTodo (memCollection none) newObjectID c db =
      ⟨some ⟨StatusCreated, .created "Todo created successfully" newObjectID⟩,
        db ++ [⟨newObjectID, c.Param "userid", b.content⟩],
        [.InsertOne ⟨newObjectID, c.Param "userid", b.content⟩]⟩ := by
  simp [AddTodo, h, hu, hb, memCollection]

theorem matches_both_userid (X : ObjectID) (u : String) (t : Todo κ)
    (h : Filter.Matches ⟨some X, some u⟩ t = true) : t.UserID = u := by
  simp [Filter.Matches] at h
  exact h.2

theorem matches_user_userid (u : String) (t : Todo κ)
    (h : Filter.Matches ⟨none, some u⟩ t = true) : t.UserID = u := by
  simpa [Filter.Matches] using h

/-- The four handlers other than `GetTodo` that read or change existing
records put the caller-supplied userid into the filter of every store call
they issue, over any collection. -/
theorem scoped_handlers_filter_userid (coll : Collection σ κ) (c : Context κ) (db : σ) :
    (∀ op ∈ (GetTodos coll c db).ops,
      ∃ f, op.filter? = some f ∧ f.userid = some (c.Param "userid")) ∧
    (∀ op ∈ (ClearAll coll c db).ops,
      ∃ f, op.filter? = some f ∧ f.userid = some (c.Param "userid")) ∧
    (∀ op ∈ (DeleteTodo coll c db).ops,
      ∃ f, op.filter? = some f ∧ f.userid = some (c.Param "userid")) ∧
    (∀ op ∈ (UpdateTodo coll c db).ops, ∃ b f, c.body = .ok b ∧
      op.filter? = some f ∧ f._id = some b.ID ∧ f.userid = some b.UserID) := by
  refine ⟨?_, ?_, ?_, ?_⟩
  · intro op hop
    unfold GetTodos at hop
    simp only at hop
    split at hop
    · simp at hop
    · split at hop
      · simp at hop; subst hop; exact ⟨_, rfl, rfl⟩
      · split at hop
        · simp at hop; subst hop; exact ⟨_, rfl, rfl⟩
        · split at hop <;> (simp at hop; subst hop; exact ⟨_, rfl, rfl⟩)
  · intro op hop
    unfold ClearAll at hop
    simp only at hop
    split at hop
    · simp at hop
    · split at hop
      · simp at hop
      · split at hop <;> (simp at hop; subst hop; exact ⟨_, rfl, rfl⟩)
  · intro op hop
    unfold DeleteTodo at hop
    simp only at hop
    split at hop
    · simp at hop
    · split at hop
      · simp at hop
      · split at hop
        · simp at hop
        · split at hop
          · simp at hop; subst hop; exact ⟨_, rfl, rfl⟩
          · split at hop <;> (simp at hop; subst hop; exact ⟨_, rfl, rfl⟩)
  · intro op hop
    unfold UpdateTodo at hop
    simp only at hop
    split at hop
    · simp at hop
    · split at hop
      · simp at hop
      · rename_i b hb
        split at hop
        · simp at hop
        · split at hop
          · simp at hop; subst hop; exact ⟨b, _, hb, rfl, rfl, rfl⟩
          · split at hop <;> (simp at hop; subst hop; exact ⟨b, _, hb, rfl, rfl, rfl⟩)

/-- C1 (failing input): `GetTodo` filters on `_id` alone.  A request that
carries the id of a record owned by `u1`, made on behalf of `u2`, issues
`FindOne` with no userid key in the filter and is answered 200 with the record
of `u1`. -/
theorem GetTodo_returns_record_of_other_user :
    GetTodo (memCollection none)
        (⟨true, [("id", sampleID.Hex), ("userid", "u2")], .error "EOF"⟩ : Context String)
        sampleStore =
      ⟨some ⟨StatusOK, .todo ⟨sampleID, "u1", "buy milk"⟩⟩, sampleStore,
        [.FindOne ⟨some sampleID, none⟩]⟩ := by
  rw [GetTodo_mem (⟨true, [("id", sampleID.Hex), ("userid", "u2")], .error "EOF"⟩ : Context String)
    sampleStore sampleID rfl (ObjectIDFromHex_Hex sampleID)]
  rfl

/-- C2: `UpdateTodo` (body userid `u`), `DeleteTodo` (route userid `u`) and
`ClearAll` (route userid `u`) leave the records owned by anyone other than `u`
exactly as they were, for every store, request, session outcome and store
failure, hence whatever status is answered. -/
theorem other_users_records_unchanged [DecidableEq κ] (fault : Option String)
    (c : Context κ) (db : Store κ) (u : String) :
    ((∀ b, c.body = .ok b → b.UserID = u) →
      others u (UpdateTodo (memCollection fault) c db).store = others u db) ∧
    (c.Param "userid" = u →
      others u (DeleteTodo (memCollection fault) c db).store = others u db) ∧
    (c.Param "userid" = u →
      others u (ClearAll (memCollection fault) c db).store = others u db) := by
  refine ⟨?_, ?_, ?_⟩
  · intro hb
    cases hs : c.session with
    | false => simp [UpdateTodo, hs]
    | true =>
      cases hbody : c.body with
      | error e => simp [UpdateTodo, hs, hbody]
      | ok b =>
        have hbu := hb b hbody
        by_cases hz : b.ID.IsZero = true ∨ b.UserID = ""
        · simp [UpdateTodo, hs, hbody, hz]
        · cases fault with
          | some e => simp [UpdateTodo, hs, hbody, hz, memCollection]
          | none =>
            have key := updateFirst_others u (Filter.Matches ⟨some b.ID, some b.UserID⟩) b
              (fun t ht => (matches_both_userid _ _ t ht).trans hbu) hbu db
            simp only [UpdateTodo, hs, hbody, hz, memCollection]
            simp only [Bool.not_true, Bool.false_eq_true, if_false]
            split <;> exact key
  · intro hu
    cases hs : c.session with
    | false => simp [DeleteTodo, hs]
    | true =>
      by_cases hp : c.Param "id" = "" ∨ c.Param "userid" = ""
      · simp [DeleteTodo, hs, hp]
      · cases hid : ObjectIDFromHex (c.Param "id") with
        | error e => simp [DeleteTodo, hs, hp, hid]
        | ok X =>
          cases fault with
          | some e => simp [DeleteTodo, hs, hp, hid, memCollection]
          | none =>
            have key := deleteFirst_others u (Filter.Matches ⟨some X, some (c.Param "userid")⟩)
              (fun t ht => (matches_both_userid _ _ t ht).trans hu) db
            simp only [DeleteTodo, hs, hp, hid, memCollection]
            simp only [Bool.not_true, Bool.false_eq_true, if_false]
            split <;> exact key
  · intro hu
    cases hs : c.session with
    | false => simp [ClearAll, hs]
    | true =>
      by_cases hp : c.Param "userid" = ""
      · simp [ClearAll, hs, hp]
      · cases fault with
        | some e => simp [ClearAll, hs, hp, memCollection]
        | none =>
          have key := filter_not_others u (Filter.Matches ⟨none, some (c.Param "userid")⟩)
            (fun t ht => (matches_user_userid _ t ht).trans hu) db
          simpa [ClearAll, hs, hp, memCollection] using key

theorem other_users_records_unchanged_witness :
    let db : Store String := [⟨sampleID, "u1", "buy milk"⟩, ⟨otherID, "u2", "walk dog"⟩]
    let c : Context String :=
      ⟨true, [("id", otherID.Hex), ("userid", "u2")], .ok ⟨otherID, "u2", "feed cat"⟩⟩
    others "u2" (UpdateTodo (memCollection none) c db).store = others "u2" db ∧
    others "u2" (DeleteTodo (memCollection none) c db).store = others "u2" db ∧
    others "u2" (ClearAll (memCollection none) c db).store = others "u2" db :=
  have w := other_users_records_unchanged none
    (⟨true, [("id", otherID.Hex), ("userid", "u2")], .ok ⟨otherID, "u2", "feed cat"⟩⟩ :
      Context String)
    [⟨sampleID, "u1", "buy milk"⟩, ⟨otherID, "u2", "walk dog"⟩] "u2"
  ⟨w.1 (fun b hb => by cases hb; rfl), w.2.1 rfl, w.2.2 rfl⟩

/-- C4: with a valid session, a non-empty route userid and a body that
deserializes, `AddTodo` over a non-failing store appends exactly one record,
whose id is the generated identifier and whose userid is the route userid
(whatever id and userid the body carried), and answers 201 with the generated
identifier. -/
theorem AddTodo_assigns_server_values [DecidableEq κ] (newObjectID : ObjectID)
    (c : Context κ) (db : Store κ) (b : Todo κ)
    (h : c.session = true) (hu : c.Param "userid" ≠ "") (hb : c.body = .ok b) :
    AddTodo (memCollection none) newObjectID c db =
      ⟨some ⟨StatusCreated, .created "Todo created successfully" newObjectID⟩,
        db ++ [⟨newObjectID, c.Param "userid", b.content⟩],
        [.InsertOne ⟨newObjectID, c.Param "userid", b.content⟩]⟩ :=
  AddTodo_mem newObjectID c db b h hu hb

theorem AddTodo_assigns_server_values_witness :
    AddTodo (memCollection none) otherID
        (⟨true, [("userid", "u2")], .ok ⟨sampleID, "u1", "walk dog"⟩⟩ : Context String)
        sampleStore =
      ⟨some ⟨StatusCreated, .created "Todo created successfully" otherID⟩,
        [⟨sampleID, "u1", "buy milk"⟩, ⟨otherID, "u2", "walk dog"⟩],
        [.InsertOne ⟨otherID, "u2", "walk dog"⟩]⟩ :=
  AddTodo_assigns_server_values otherID
    (⟨true, [("userid", "u2")], .ok ⟨sampleID, "u1", "walk dog"⟩⟩ : Context String)
    sampleStore ⟨sampleID, "u1", "walk dog"⟩ rfl (by decide) rfl

/-- C5: with a valid session, well-formed inputs and a non-failing store, when
no stored record has both the given id and the given userid, `UpdateTodo` and
`DeleteTodo` answer 404 (not 200 with a zero count) and leave the store
unchanged. -/
theorem no_owned_match_not_found [DecidableEq κ] (c : Context κ) (db : Store κ)
    (h : c.session = true) :
    (∀ b, c.body = .ok b → b.ID.IsZero = false → b.UserID ≠ "" →
      (∀ t ∈ db, ¬ (t.ID = b.ID ∧ t.UserID = b.UserID)) →
      (UpdateTodo (memCollection none) c db).response =
          some ⟨StatusNotFound, .error "Todo not found or not owned by user"⟩ ∧
        (UpdateTodo (memCollection none) c db).store = db) ∧
    (∀ X, ObjectIDFromHex (c.Param "id") = .ok X → c.Param "userid" ≠ "" →
      (∀ t ∈ db, ¬ (t.ID = X ∧ t.UserID = c.Param "userid")) →
      (DeleteTodo (memCollection none) c db).response =
          some ⟨StatusNotFound, .error "Todo not found or not owned by user"⟩ ∧
        (DeleteTodo (memCollection none) c db).store = db) := by
  constructor
  · intro b hb hz hu hno
    have hm : ∀ t ∈ db, Filter.Matches ⟨some b.ID, some b.UserID⟩ t = false := by
      intro t ht
      have := hno t ht
      simp only [Filter.Matches, Bool.and_eq_false_iff, decide_eq_false_iff_not]
      tauto
    simp [UpdateTodo, h, hb, hz, hu, memCollection, updateFirst_none _ _ db hm]
  · intro X hid hu hno
    have hm : ∀ t ∈ db, Filter.Matches ⟨some X, some (c.Param "userid")⟩ t = false := by
      intro t ht
      have := hno t ht
      simp only [Filter.Matches, Bool.and_eq_false_iff, decide_eq_false_iff_not]
      tauto
    rw [DeleteTodo_mem c db X h hid hu, deleteFirst_none _ db hm]
    simp

theorem no_owned_match_not_found_witness :
    let c : Context String :=
      ⟨true, [("id", sampleID.Hex), ("userid", "u2")], .ok ⟨sampleID, "u2", "new"⟩⟩
    ((UpdateTodo (memCollection none) c sampleStore).response =
        some ⟨StatusNotFound, .error "Todo not found or not owned by user"⟩ ∧
      (UpdateTodo (memCollection none) c sampleStore).store = sampleStore) ∧
    ((DeleteTodo (memCollection none) c sampleStore).response =
        some ⟨StatusNotFound, .error "Todo not found or not owned by user"⟩ ∧
      (DeleteTodo (memCollection none) c sampleStore).store = sampleStore) :=
  have w := no_owned_match_not_found
    (⟨true, [("id", sampleID.Hex), ("userid", "u2")], .ok ⟨sampleID, "u2", "new"⟩⟩ :
      Context String) sampleStore rfl
  ⟨w.1 ⟨sampleID, "u2", "new"⟩ rfl (by decide) (by decide) (by simp [sampleStore]),
    w.2 sampleID (ObjectIDFromHex_Hex sampleID) (by decide)
      (fun t ht hh => by
        simp only [sampleStore, List.mem_singleton] at ht
        subst ht
        exact absurd hh.2 (by decide))⟩

/-- C7: with a valid session, a non-empty route userid and a non-failing store,
`ClearAll` answers 200 with `deletedCount` equal to the number of stored
records of that user, keeps exactly the records of the other users, and so
leaves no record of that user; when the user has no record the answer is still
200, with `deletedCount` 0. -/
theorem ClearAll_deletes_every_record_of_user [DecidableEq κ] (c : Context κ) (db : Store κ)
    (h : c.session = true) (hu : c.Param "userid" ≠ "") :
    (ClearAll (memCollection none) c db).response =
      some ⟨StatusOK, .deleted "All todos deleted"
        (db.countP (fun t => decide (t.UserID = c.Param "userid")))⟩ ∧
    (ClearAll (memCollection none) c db).store = others (c.Param "userid") db ∧
    (∀ t ∈ (ClearAll (memCollection none) c db).store, t.UserID ≠ c.Param "userid") ∧
    ((∀ t ∈ db, t.UserID ≠ c.Param "userid") →
      (ClearAll (memCollection none) c db).response =
        some ⟨StatusOK, .deleted "All todos deleted" 0⟩) := by
  have hm : (Filter.Matches ⟨none, some (c.Param "userid")⟩ : Todo κ → Bool) =
      fun t => decide (t.UserID = c.Param "userid") := by
    funext t
    simp [Filter.Matches]
  have hresp : (ClearAll (memCollection none) c db).response =
      some ⟨StatusOK, .deleted "All todos deleted"
        (db.countP (fun t => decide (t.UserID = c.Param "userid")))⟩ := by
    simp [ClearAll, h, hu, memCollection, hm]
  have hstore : (ClearAll (memCollection none) c db).store = others (c.Param "userid") db := by
    simp [ClearAll, h, hu, memCollection, hm, others]
  refine ⟨hresp, hstore, ?_, ?_⟩
  · intro t ht
    rw [hstore] at ht
    simpa [others] using (List.mem_filter.mp ht).2
  · intro hnone
    rw [hresp]
    have : db.countP (fun t => decide (t.UserID = c.Param "userid")) = 0 := by
      rw [List.countP_eq_zero]
      intro t ht
      simpa using hnone t ht
    rw [this]

theorem ClearAll_deletes_every_record_of_user_witness :
    let db : Store String :=
      [⟨sampleID, "u1", "buy milk"⟩, ⟨otherID, "u2", "walk dog"⟩, ⟨NilObjectID, "u1", "nap"⟩]
    let c : Context String := ⟨true, [("userid", "u1")], .error "EOF"⟩
    (ClearAll (memCollection none) c db).response =
      some ⟨StatusOK, .deleted "All todos deleted" 2⟩ ∧
    (ClearAll (memCollection none) c db).store = [⟨otherID, "u2", "walk dog"⟩] ∧
    (ClearAll (memCollection none) c sampleStore).store = [] ∧
    (ClearAll (memCollection none) c []).response =
      some ⟨StatusOK, .deleted "All todos deleted" 0⟩ :=
  ⟨(ClearAll_deletes_every_record_of_user
      (⟨true, [("userid", "u1")], .error "EOF"⟩ : Context String)
      [⟨sampleID, "u1", "buy milk"⟩, ⟨otherID, "u2", "walk dog"⟩, ⟨NilObjectID, "u1", "nap"⟩]
      rfl (by decide)).1,
    (ClearAll_deletes_every_record_of_user
      (⟨true, [("userid", "u1")], .error "EOF"⟩ : Context String)
      [⟨sampleID, "u1", "buy milk"⟩, ⟨otherID, "u2", "walk dog"⟩, ⟨NilObjectID, "u1", "nap"⟩]
      rfl (by decide)).2.1,
    (ClearAll_deletes_every_record_of_user
      (⟨true, [("userid", "u1")], .error "EOF"⟩ : Context String) sampleStore
      rfl (by decide)).2.1,
    (ClearAll_deletes_every_record_of_user
      (⟨true, [("userid", "u1")], .error "EOF"⟩ : Context String) []
      rfl (by decide)).2.2.2 (by simp)⟩

/-- C3: round trip over a non-failing store with valid sessions.  Let `X` be a
freshly generated id (no stored record has it), `u` a non-empty userid and `b`
a deserialized body.  `AddTodo` answers 201 with `X`; then `GetTodo` on the hex
form of `X` answers 200 with a record whose userid is `u` and whose content is
that of `b`; then `DeleteTodo` on `X` and `u` answers 200 with `deletedCount`
1; then `GetTodo` on `X` answers 404.  Each call runs on the store the previous
call left. -/
theorem create_fetch_delete_fetch [DecidableEq κ] (db : Store κ) (X : ObjectID) (u : String)
    (b : Todo κ) (cCreate cFetch cDelete : Context κ)
    (hfresh : ∀ t ∈ db, t.ID ≠ X) (hu : u ≠ "")
    (hc : cCreate.session = true) (hcu : cCreate.Param "userid" = u)
    (hcb : cCreate.body = .ok b)
    (hf : cFetch.session = true) (hfi : cFetch.Param "id" = X.Hex)
    (hd : cDelete.session = true) (hdi : cDelete.Param "id" = X.Hex)
    (hdu : cDelete.Param "userid" = u) :
    (AddTodo (memCollection none) X cCreate db).response =
      some ⟨StatusCreated, .created "Todo created successfully" X⟩ ∧
    (GetTodo (memCollection none) cFetch
        (AddTodo (memCollection none) X cCreate db).store).response =
      some ⟨StatusOK, .todo ⟨X, u, b.content⟩⟩ ∧
    (DeleteTodo (memCollection none) cDelete
        (GetTodo (memCollection none) cFetch
          (AddTodo (memCollection none) X cCreate db).store).store).response =
      some ⟨StatusOK, .deleted "Todo deleted successfully" 1⟩ ∧
    (GetTodo (memCollection none) cFetch
        (DeleteTodo (memCollection none) cDelete
          (GetTodo (memCollection none) cFetch
            (AddTodo (memCollection none) X cCreate db).store).store).store).response =
      some ⟨StatusNotFound, .error "Todo not found"⟩ := by
  have hfid : ObjectIDFromHex (cFetch.Param "id") = .ok X := by
    rw [hfi]; exact ObjectIDFromHex_Hex X
  have hdid : ObjectIDFromHex (cDelete.Param "id") = .ok X := by
    rw [hdi]; exact ObjectIDFromHex_Hex X
  have hdu' : cDelete.Param "userid" ≠ "" := by rw [hdu]; exact hu
  have hcu' : cCreate.Param "userid" ≠ "" := by rw [hcu]; exact hu
  have hadd := AddTodo_mem X cCreate db b hc hcu' hcb
  rw [hcu] at hadd
  have hm1 : ∀ t ∈ db, Filter.Matches ⟨some X, none⟩ t = false := by
    intro t ht
    simpa [Filter.Matches] using hfresh t ht
  have hm2 : ∀ t ∈ db, Filter.Matches ⟨some X, some u⟩ t = false := by
    intro t ht
    have := hfresh t ht
    simp [Filter.Matches, this]
  have hx1 : Filter.Matches ⟨some X, none⟩ (⟨X, u, b.content⟩ : Todo κ) = true := by
    simp [Filter.Matches]
  have hx2 : Filter.Matches ⟨some X, some u⟩ (⟨X, u, b.content⟩ : Todo κ) = true := by
    simp [Filter.Matches]
  have hget1 : GetTodo (memCollection none) cFetch (db ++ [⟨X, u, b.content⟩]) =
      ⟨some ⟨StatusOK, .todo ⟨X, u, b.content⟩⟩, db ++ [⟨X, u, b.content⟩],
        [.FindOne ⟨some X, none⟩]⟩ := by
    rw [GetTodo_mem cFetch _ X hf hfid, find?_append_fresh _ _ hx1 db hm1]
  have hdel : DeleteTodo (memCollection none) cDelete (db ++ [⟨X, u, b.content⟩]) =
      ⟨some ⟨StatusOK, .deleted "Todo deleted successfully" 1⟩, db,
        [.DeleteOne ⟨some X, some u⟩]⟩ := by
    rw [DeleteTodo_mem cDelete _ X hd hdid hdu', hdu, deleteFirst_append_fresh _ _ hx2 db hm2]
    simp
  have hget2 : GetTodo (memCollection none) cFetch db =
      ⟨some ⟨StatusNotFound, .error "Todo not found"⟩, db, [.FindOne ⟨some X, none⟩]⟩ := by
    rw [GetTodo_mem cFetch _ X hf hfid, find?_none_of_forall _ db hm1]
  rw [hadd]
  simp only [hget1, hdel, hget2, and_self]

theorem create_fetch_delete_fetch_witness :
    let cCreate : Context String := ⟨true, [("userid", "u1")], .ok ⟨NilObjectID, "", "buy milk"⟩⟩
    let cFetch : Context String := ⟨true, [("id", sampleID.Hex)], .error "EOF"⟩
    let cDelete : Context String :=
      ⟨true, [("id", sampleID.Hex), ("userid", "u1")], .error "EOF"⟩
    (AddTodo (memCollection none) sampleID cCreate []).response =
      some ⟨StatusCreated, .created "Todo created successfully" sampleID⟩ ∧
    (GetTodo (memCollection none) cFetch
        (AddTodo (memCollection none) sampleID cCreate []).store).response =
      some ⟨StatusOK, .todo ⟨sampleID, "u1", "buy milk"⟩⟩ ∧
    (DeleteTodo (memCollection none) cDelete
        (GetTodo (memCollection none) cFetch
          (AddTodo (memCollection none) sampleID cCreate []).store).store).response =
      some ⟨StatusOK, .deleted "Todo deleted successfully" 1⟩ ∧
    (GetTodo (memCollection none) cFetch
        (DeleteTodo (memCollection none) cDelete
          (GetTodo (memCollection none) cFetch
            (AddTodo (memCollection none) sampleID cCreate []).store).store).store).response =
      some ⟨StatusNotFound, .error "Todo not found"⟩ :=
  create_fetch_delete_fetch [] sampleID "u1" ⟨NilObjectID, "", "buy milk"⟩
    (⟨true, [("userid", "u1")], .ok ⟨NilObjectID, "", "buy milk"⟩⟩ : Context String)
    (⟨true, [("id", sampleID.Hex)], .error "EOF"⟩ : Context String)
    (⟨true, [("id", sampleID.Hex), ("userid", "u1")], .error "EOF"⟩ : Context String)
    (by simp) (by decide) rfl rfl rfl rfl rfl rfl rfl rfl

end Tasky
